import Mathlib

/-!
Verification development for the RNK Illumination Foundry VTT module.

The definitions below are a shallow embedding of the module's JavaScript
source (`src/scripts/constants.js`, `effects.js`, `hub.js`,
`rnk-illumination-unified.js`, `rnk-illumination.js`,
`rnk-illumination-Wohdan.js`).  Host-engine objects (PIXI filters, users,
tokens) are modelled by explicit data; JavaScript numbers are modelled by
`ℚ` for the form-handling code and by `ℝ` for the line geometry (which uses
`Math.sqrt`); JavaScript's `x || d` falsy-default idiom is modelled by
explicit `jsOr*` helpers (falsy values: `undefined`/`NaN` as `Option.none`,
`0`, and the empty string).
-/

namespace RNKIllumination

/-! ### Constants (`src/scripts/constants.js`) -/

/-- `DEFAULT_SETTINGS = { color: '#ffffff', effect: 'glow', symbol: 'x', intensity: 1.0, range: 30 }`. -/
def DEFAULT_SETTINGS_color : String := "#ffffff"

def DEFAULT_SETTINGS_effect : String := "glow"

def DEFAULT_SETTINGS_symbol : String := "x"

def DEFAULT_SETTINGS_intensity : ℚ := 1

def DEFAULT_SETTINGS_range : ℤ := 30

/-- `AVAILABLE_EFFECTS = ['none', 'glow', 'outline', 'shadow', 'neon']`. -/
def AVAILABLE_EFFECTS : List String := ["none", "glow", "outline", "shadow", "neon"]

/-- `AVAILABLE_SYMBOLS = ['x', 'plus', 'cross', 'triangle', 'square', 'circle', 'star', 'diamond', 'arrow', 'dot', 'ring', 'hexagon']`. -/
def AVAILABLE_SYMBOLS : List String :=
  ["x", "plus", "cross", "triangle", "square", "circle", "star", "diamond",
   "arrow", "dot", "ring", "hexagon"]

/-- `AVAILABLE_RANGES = [15, 20, 25, 30, 40, 50, 60]`. -/
def AVAILABLE_RANGES : List ℤ := [15, 20, 25, 30, 40, 50, 60]

/-! ### JavaScript falsy-default helpers -/

/-- `s || d` for strings: the empty string is falsy. -/
def jsOrS (s d : String) : String := if s = "" then d else s

/-- `o || d` for an optional string (`undefined` is `none`): `undefined` and `''` are falsy. -/
def jsOrOptS (o : Option String) (d : String) : String :=
  match o with
  | none => d
  | some s => if s = "" then d else s

/-- `parseFloat(x) || d`: `NaN` (modelled as `none`) and `0` are falsy. -/
def jsOrQ (o : Option ℚ) (d : ℚ) : ℚ :=
  match o with
  | none => d
  | some v => if v = 0 then d else v

/-- `parseInt(x) || d`: `NaN` (modelled as `none`) and `0` are falsy. -/
def jsOrZ (o : Option ℤ) (d : ℤ) : ℤ :=
  match o with
  | none => d
  | some v => if v = 0 then d else v

/-- JavaScript's `String.prototype.trim()`: strip leading and trailing
whitespace. -/
def jsTrim (s : String) : String :=
  String.mk (((s.data.dropWhile Char.isWhitespace).reverse.dropWhile
    Char.isWhitespace).reverse)

/-! ### Color validation (`effects.js`: `sanitizeColor`) -/

/-- A hexadecimal digit, upper or lower case, matching the character class
`[0-9A-F]` under the regex's `i` flag. -/
def isHexDigitChar (c : Char) : Bool :=
  c.isDigit || (('A' ≤ c) && (c ≤ 'F')) || (('a' ≤ c) && (c ≤ 'f'))

/-- The test `/^#[0-9A-F]{6}$/i.test(s)`: a `#` followed by exactly six
hexadecimal digits. -/
def isHexColor (s : String) : Bool :=
  match s.toList with
  | '#' :: rest => (rest.length == 6) && rest.all isHexDigitChar
  | _ => false

/-- `sanitizeColor` (`effects.js` lines 29-34): return the input when it is a
string matching `/^#[0-9A-F]{6}$/i`, else `'#ffffff'`. -/
def sanitizeColor (color : String) : String :=
  if isHexColor color then color else "#ffffff"

/-! ### Per-user settings lookup (`rnk-illumination-unified.js`: `getUserSettings`) -/

/-- The raw flag object stored under `flags['rnk-illumination'].settings`;
each field may be absent (`none`, i.e. `undefined`). -/
structure StoredSettings where
  color : Option String
  effect : Option String
  symbol : Option String
  deriving DecidableEq

/-- The settings object `getUserSettings` returns. -/
structure UserSettings where
  color : String
  effect : String
  symbol : String
  deriving DecidableEq

/-- `getUserSettings(userId)` (`rnk-illumination-unified.js` lines 21-29):
`raw = user ? (user.getFlag(MODULE_ID, 'settings') || {}) : {}`, then each
field falls back to the default when falsy, and the color is sanitized.
`userExists` models whether `game.users.get(userId)` found a user, and
`flag` the stored flag object (`none` when not set). -/
def getUserSettings (userExists : Bool) (flag : Option StoredSettings) : UserSettings :=
  let raw : StoredSettings :=
    if userExists then flag.getD ⟨none, none, none⟩ else ⟨none, none, none⟩
  { color := sanitizeColor (jsOrOptS raw.color DEFAULT_SETTINGS_color),
    effect := jsOrOptS raw.effect DEFAULT_SETTINGS_effect,
    symbol := jsOrOptS raw.symbol DEFAULT_SETTINGS_symbol }

/-! ### Filter effects (`effects.js`) -/

/-- Which host filter classes `getFilterClass` can find (a class is found
when it exists on `PIXI.filters` or on `globalThis`; `getFilterClass`
returns `null` otherwise). -/
structure FilterEnv where
  glowAvailable : Bool
  outlineAvailable : Bool
  dropShadowAvailable : Bool
  deriving DecidableEq

/-- The filter object constructed by the `switch (settings.effect)` in
`applyEffect`.  Parameters record the constructor arguments used in the
source; `colorMatrixFallback s` is the `createFallbackFilter(color, s)`
`ColorMatrixFilter`. -/
inductive FilterKind where
  | glowFilter (distance outerStrength : ℚ) (innerStrength : Option ℚ)
  | outlineFilter (thickness quality : ℚ)
  | dropShadowFilter
  | colorMatrixFallback (strength : ℚ)
  deriving DecidableEq

/-- Whether a constructed filter is the `createFallbackFilter` `ColorMatrixFilter`. -/
def FilterKind.isFallback : FilterKind → Bool
  | .colorMatrixFallback _ => true
  | _ => false

/-- The `switch (settings.effect)` dispatch in `applyEffect`
(`effects.js` lines 94-131), with each branch's availability test and
constructor arguments. -/
def selectFilter (effect : String) (env : FilterEnv) : FilterKind :=
  if effect = "glow" then
    if env.glowAvailable then .glowFilter 10 (3/2) (some (1/2))
    else .colorMatrixFallback 1
  else if effect = "outline" then
    if env.outlineAvailable then .outlineFilter (3/2) (3/10)
    else if env.glowAvailable then .glowFilter 3 3 (some 0)
    else .colorMatrixFallback (3/2)
  else if effect = "shadow" then
    if env.dropShadowAvailable then .dropShadowFilter
    else .colorMatrixFallback (1/2)
  else if effect = "neon" then
    if env.glowAvailable then .glowFilter 8 (5/2) (some (3/10))
    else .colorMatrixFallback 2
  else
    if env.glowAvailable then .glowFilter 10 (3/2) none
    else .colorMatrixFallback 1

/-- A filter sitting in `sprite.filters`: `rnkIllumination` models the
`_rnkIllumination` marker property, and `kind` is `some k` for filters this
module constructed (external filters carry `none`). -/
structure SpriteFilter where
  rnkIllumination : Bool
  kind : Option FilterKind
  deriving DecidableEq

/-- `removeEffect` on the filter list (`effects.js` lines 155-175):
`filtered = sprite.filters.filter(f => !f._rnkIllumination);
sprite.filters = filtered.length > 0 ? filtered : null;` and a sprite with
`sprite.filters` null is left unchanged. -/
def removeEffectFilters (fs : Option (List SpriteFilter)) : Option (List SpriteFilter) :=
  match fs with
  | none => none
  | some l =>
    let filtered := l.filter (fun f => !f.rnkIllumination)
    if 0 < filtered.length then some filtered else none

/-- `applyEffect` on the filter list (`effects.js` lines 77-149): first
`removeEffect(token)`, then construct the filter for `settings.effect`, mark
it with `_rnkIllumination = true`, and append it to the remaining filters
(`existingFilters = sprite.filters ? [...sprite.filters] : []`). -/
def applyEffectOn (fs : Option (List SpriteFilter)) (effect : String) (env : FilterEnv) :
    Option (List SpriteFilter) :=
  let afterRemove := removeEffectFilters fs
  let existing := afterRemove.getD []
  some (existing ++ [{ rnkIllumination := true, kind := some (selectFilter effect env) }])

/-- The filters of a sprite as a plain list (`null` is the empty list). -/
def filterList (fs : Option (List SpriteFilter)) : List SpriteFilter := fs.getD []

/-- The module-marked filters among a sprite's filters. -/
def markedCount (fs : Option (List SpriteFilter)) : ℕ :=
  (filterList fs).countP (fun f => f.rnkIllumination)

/-- The filters not marked `_rnkIllumination`, in order. -/
def unmarkedFilters (fs : Option (List SpriteFilter)) : List SpriteFilter :=
  (filterList fs).filter (fun f => !f.rnkIllumination)

/-- The claim's notion of "preferred host filter class unavailable" for each
effect value: `GlowFilter` for `glow`/`neon`/default, `OutlineFilter` and
then `GlowFilter` for `outline`, `DropShadowFilter` for `shadow`. -/
def preferredUnavailable (effect : String) (env : FilterEnv) : Prop :=
  if effect = "outline" then env.outlineAvailable = false ∧ env.glowAvailable = false
  else if effect = "shadow" then env.dropShadowAvailable = false
  else env.glowAvailable = false

/-! ### Symbol validation

`hub.js` imports `isValidSymbol` from `./targeting.js`. -/

/-- Modelled from the spec: `targeting.js` is not among the source files
(only `hub.js`'s import declares it); the spec says the submit handler
"validates a few strings against fixed allow-lists", and the in-repository
near-duplicate `rnk-illumination-Wohdan.js` defines
`isValidSymbol(symbol) { return AVAILABLE_SYMBOLS?.includes(symbol) || false; }`. -/
def isValidSymbol (symbol : String) : Bool :=
  AVAILABLE_SYMBOLS.contains symbol

/-! ### The GM hub submit handler (`hub.js`: `RNKGMHub._onSubmit`, `openIlluminationHub`) -/

/-- One blank of the submitted form for one user (the `gm*` fields for the
GM, the `<userId>_*` fields for the others).  `intensity` is the result of
`parseFloat` (`none` for `NaN`), `range` the result of `parseInt`
(`none` for `NaN`); missing string fields are the empty string. -/
structure UserForm where
  color : String
  effect : String
  intensity : Option ℚ
  range : Option ℤ
  customSymbol : String
  symbol : String
  deriving DecidableEq

/-- The whole submission: whether `game.user?.isGM`, the GM's id and form
fields, and, for each other user in `game.users`, that user's id and form
fields, in iteration order. -/
structure SubmitForm where
  isGM : Bool
  gmId : String
  gm : UserForm
  users : List (String × UserForm)
  deriving DecidableEq

/-- The settings object passed to `setFlag(MODULE_ID, 'settings', ...)`.
The GM's own object has no `customSymbol` field (`none`); each player's
object carries `customSymbol: customSymbol || ''`. -/
structure WrittenSettings where
  color : String
  effect : String
  symbol : String
  intensity : ℚ
  range : ℤ
  customSymbol : Option String
  deriving DecidableEq

/-- One `await user.setFlag(MODULE_ID, 'settings', settings)` call:
the target user's id and the settings object written. -/
structure Write where
  target : String
  settings : WrittenSettings
  deriving DecidableEq

/-- How `_onSubmit` ends: the early `return` behind the
`"Only GMs can modify player settings"` notification, the `catch` branch
behind the `"Failed to save illumination settings"` notification, or the
`"GM and player settings updated"` success path. -/
inductive SubmitResult where
  | gmOnlyError
  | saveError
  | success
  deriving DecidableEq

/-- The settings object the GM branch of `_onSubmit` derives from the form
(`hub.js` lines 156-185): defaulted intensity and range, trimmed custom
symbol, `gmSymbol = gmCustomSymbol || data.gmSymbol || DEFAULT_SETTINGS.symbol`. -/
def deriveGMSettings (f : UserForm) : WrittenSettings :=
  { color := f.color,
    effect := f.effect,
    symbol := jsOrS (jsTrim f.customSymbol) (jsOrS f.symbol DEFAULT_SETTINGS_symbol),
    intensity := jsOrQ f.intensity DEFAULT_SETTINGS_intensity,
    range := jsOrZ f.range DEFAULT_SETTINGS_range,
    customSymbol := none }

/-- The settings object the per-user loop of `_onSubmit` derives from the
form (`hub.js` lines 188-219): as for the GM but
`symbol = customSymbol || data[user.id_symbol]` (no `'x'` default) and the
object keeps `customSymbol`. -/
def deriveUserSettings (f : UserForm) : WrittenSettings :=
  { color := f.color,
    effect := f.effect,
    symbol := jsOrS (jsTrim f.customSymbol) f.symbol,
    intensity := jsOrQ f.intensity DEFAULT_SETTINGS_intensity,
    range := jsOrZ f.range DEFAULT_SETTINGS_range,
    customSymbol := some (jsTrim f.customSymbol) }

/-- The five validation checks `_onSubmit` runs before each write, on the
derived values: color regex, effect allow-list, symbol allow-list,
intensity in `[0.1, 3.0]` (the code throws when
`intensity < 0.1 || intensity > 3.0`), range allow-list. -/
def validSettings (s : WrittenSettings) : Bool :=
  isHexColor s.color && AVAILABLE_EFFECTS.contains s.effect &&
    isValidSymbol s.symbol &&
    (!(s.intensity < mkRat 1 10 || 3 < s.intensity)) && AVAILABLE_RANGES.contains s.range

/-- The per-user loop of `_onSubmit` (`hub.js` lines 188-221): validate each
user's derived settings in turn; a failing check throws, ending the loop
with the writes already performed; a passing user is written and the loop
continues. -/
def processUsers : List (String × UserForm) → List Write → List Write × SubmitResult
  | [], acc => (acc, .success)
  | (uid, f) :: rest, acc =>
    let s := deriveUserSettings f
    if validSettings s then processUsers rest (acc ++ [⟨uid, s⟩])
    else (acc, .saveError)

/-- `RNKGMHub._onSubmit` (`hub.js` lines 140-245) as the list of `setFlag`
writes it performs, in order, together with how it ends: the non-GM guard
writes nothing; the GM's own settings are validated and written first; then
each other user is validated and written in turn. -/
def onSubmit (form : SubmitForm) : List Write × SubmitResult :=
  if !form.isGM then ([], .gmOnlyError)
  else
    let gmS := deriveGMSettings form.gm
    if validSettings gmS then processUsers form.users [⟨form.gmId, gmS⟩]
    else ([], .saveError)

/-- What `openIlluminationHub` does. -/
inductive HubAction where
  | errorNotification
  | renderHub
  deriving DecidableEq

/-- `openIlluminationHub` (`hub.js` lines 251-257): non-GM users get the
`"Only Game Masters can access the Illumination Hub"` error notification and
no render; a GM gets `new RNKGMHub().render({ force: true })`. -/
def openIlluminationHub (isGM : Bool) : HubAction :=
  if !isGM then .errorNotification else .renderHub

/-! ### Targeting-line geometry (`rnk-illumination-unified.js`: `drawTargetingLine`)

The unified version (lines 137-217) and `rnk-illumination.js` (lines
421-498) compute identical endpoints, distances and marker positions (they
differ only in the marker glyph drawn).  JavaScript numbers are modelled by
`ℝ` (the code uses `Math.sqrt`).  `S` stands for `canvas.grid.size` and
`D` for `canvas.scene.grid.distance` (the code reads it as `D || 5`). -/

/-- A canvas token, reduced to the one property `drawTargetingLine` reads:
its center `(token.center.x, token.center.y)`. -/
structure CanvasToken where
  center : ℝ × ℝ

/-- `x || d` for numbers: `0` (and `undefined`, folded into `0`) is falsy. -/
noncomputable def jsOrR (x d : ℝ) : ℝ := if x = 0 then d else x

/-- `pixelDistance = Math.sqrt((endX - startX) ** 2 + (endY - startY) ** 2)`. -/
noncomputable def pixelDistance (sx sy ex ey : ℝ) : ℝ :=
  Real.sqrt ((ex - sx) ^ 2 + (ey - sy) ^ 2)

/-- `totalLength = Math.sqrt(dx * dx + dy * dy)` with `dx = endX - startX`,
`dy = endY - startY` (recomputed inside the marker block). -/
noncomputable def totalLength (sx sy ex ey : ℝ) : ℝ :=
  Real.sqrt ((ex - sx) * (ex - sx) + (ey - sy) * (ey - sy))

/-- `unitDistance = (pixelDistance / canvas.grid.size) * (canvas.scene.grid.distance || 5)`. -/
noncomputable def unitDistance (sx sy ex ey S D : ℝ) : ℝ :=
  pixelDistance sx sy ex ey / S * jsOrR D 5

/-- `numMarkers = Math.floor(unitDistance / markerInterval)` with
`markerInterval = 5`. -/
noncomputable def numMarkers (sx sy ex ey S D : ℝ) : ℤ :=
  ⌊unitDistance sx sy ex ey S D / 5⌋

/-- The position of the `i`-th marker dot: with `unitVector = (dx, dy) /
totalLength` and `distance = i * 5`,
`marker = start + unitVector * ((distance / (grid.distance || 5)) * grid.size)`. -/
noncomputable def markerPos (sx sy ex ey S D : ℝ) (i : ℕ) : ℝ × ℝ :=
  let dx := ex - sx
  let dy := ey - sy
  let len := totalLength sx sy ex ey
  let pd := (i : ℝ) * 5 / jsOrR D 5 * S
  (sx + dx / len * pd, sy + dy / len * pd)

/-- The drawing `drawTargetingLine` produces: the straight line's two
endpoints and the list of marker-dot positions. -/
structure TargetLine where
  lineStart : ℝ × ℝ
  lineEnd : ℝ × ℝ
  markers : List (ℝ × ℝ)

/-- `drawTargetingLine(userToken, targetToken, color)`
(`rnk-illumination-unified.js` lines 137-217): the line runs from
`userToken.center` to `targetToken.center`; when `numMarkers > 0` the loop
`for (let i = 1; i <= numMarkers; i++)` draws a marker at each
`markerPos i`. -/
noncomputable def drawTargetingLine (userToken targetToken : CanvasToken) (S D : ℝ) :
    TargetLine :=
  let sx := userToken.center.1
  let sy := userToken.center.2
  let ex := targetToken.center.1
  let ey := targetToken.center.2
  { lineStart := (sx, sy),
    lineEnd := (ex, ey),
    markers :=
      if 0 < numMarkers sx sy ex ey S D then
        (List.range' 1 (numMarkers sx sy ex ey S D).toNat).map (markerPos sx sy ex ey S D)
      else [] }

/-- The distance from `p` to `q` converted to scene distance units exactly
as the code converts (`pixels / grid.size * (grid.distance || 5)`). -/
noncomputable def distUnits (S D : ℝ) (p q : ℝ × ℝ) : ℝ :=
  Real.sqrt ((q.1 - p.1) ^ 2 + (q.2 - p.2) ^ 2) / S * jsOrR D 5

/-- `p` lies on the closed segment from `a` to `b`. -/
def onSegment (a b p : ℝ × ℝ) : Prop :=
  ∃ t : ℝ, 0 ≤ t ∧ t ≤ 1 ∧ p = (a.1 + t * (b.1 - a.1), a.2 + t * (b.2 - a.2))

/-- The Wohdan edition's `drawTargetingLine`
(`rnk-illumination-Wohdan.js` lines 340-470) draws nothing at all when
`pixelDistance < 5` (its divisions `dx / pixelDistance` come after this
guard); this records whether it bails out. -/
noncomputable def wohdanLineSkipped (userToken targetToken : CanvasToken) : Prop :=
  pixelDistance userToken.center.1 userToken.center.2
    targetToken.center.1 targetToken.center.2 < 5

/-! ### Helper lemmas -/

theorem isHexColor_default : isHexColor "#ffffff" = true := by decide

theorem sanitizeColor_hex {s : String} (h : isHexColor s = true) : sanitizeColor s = s := by
  simp [sanitizeColor, h]

theorem sanitizeColor_not_hex {s : String} (h : isHexColor s = false) :
    sanitizeColor s = "#ffffff" := by
  simp [sanitizeColor, h]

theorem isHexColor_sanitizeColor (s : String) : isHexColor (sanitizeColor s) = true := by
  unfold sanitizeColor
  split
  · assumption
  · exact isHexColor_default

/-- Claim C6: `getUserSettings` always returns a settings object whose color
matches `/^#[0-9A-F]{6}$/i`; a missing user, a missing flag, or a missing or
falsy stored field yields the default for that field (`'#ffffff'`, `'glow'`,
`'x'`); and `sanitizeColor` returns its input exactly when the input matches
the pattern and `'#ffffff'` otherwise. -/
theorem c6_getUserSettings_defaults_and_sanitized :
    ∀ (userExists : Bool) (flag : Option StoredSettings),
      isHexColor (getUserSettings userExists flag).color = true
      ∧ (userExists = false ∨ flag = none →
          getUserSettings userExists flag = ⟨"#ffffff", "glow", "x"⟩)
      ∧ (∀ st : StoredSettings,
          ((st.color = none ∨ st.color = some "") →
            (getUserSettings true (some st)).color = "#ffffff")
          ∧ ((st.effect = none ∨ st.effect = some "") →
            (getUserSettings true (some st)).effect = "glow")
          ∧ ((st.symbol = none ∨ st.symbol = some "") →
            (getUserSettings true (some st)).symbol = "x"))
      ∧ (∀ c : String, (isHexColor c = true → sanitizeColor c = c)
          ∧ (isHexColor c = false → sanitizeColor c = "#ffffff")) := by
  intro userExists flag
  refine ⟨isHexColor_sanitizeColor _, ?_, ?_, ?_⟩
  · rintro (rfl | rfl)
    · simp [getUserSettings, jsOrOptS, DEFAULT_SETTINGS_color, DEFAULT_SETTINGS_effect,
        DEFAULT_SETTINGS_symbol]
      decide
    · cases userExists <;>
        · simp [getUserSettings, jsOrOptS, DEFAULT_SETTINGS_color, DEFAULT_SETTINGS_effect,
            DEFAULT_SETTINGS_symbol]
          decide
  · intro st
    refine ⟨?_, ?_, ?_⟩ <;> rintro (h | h) <;>
      simp [getUserSettings, jsOrOptS, h, DEFAULT_SETTINGS_color, DEFAULT_SETTINGS_effect,
        DEFAULT_SETTINGS_symbol] <;> decide
  · intro c
    exact ⟨fun h => sanitizeColor_hex h, fun h => sanitizeColor_not_hex h⟩

/-- Witness for C6 at a concrete input: a missing user yields the default
settings object. -/
theorem c6_witness : getUserSettings false none = ⟨"#ffffff", "glow", "x"⟩ :=
  (c6_getUserSettings_defaults_and_sanitized false none).2.1 (Or.inl rfl)

/-- Claim C7: every targeting line starts at the targeting user's token
center and ends at the targeted token's center. -/
theorem c7_line_endpoints_are_token_centers :
    ∀ (userToken targetToken : CanvasToken) (S D : ℝ),
      (drawTargetingLine userToken targetToken S D).lineStart = userToken.center
      ∧ (drawTargetingLine userToken targetToken S D).lineEnd = targetToken.center := by
  intro u t S D
  constructor <;> simp [drawTargetingLine]

/-- Claim C5: a non-GM user gets an error notification from
`openIlluminationHub` and no hub render, `_onSubmit` returns behind its
error notification before any `setFlag` write for a non-GM submitter, and
any submission that performs a write was made by a GM. -/
theorem c5_settings_writes_require_gm :
    openIlluminationHub false = HubAction.errorNotification
    ∧ (∀ form : SubmitForm, form.isGM = false →
        onSubmit form = ([], SubmitResult.gmOnlyError))
    ∧ (∀ form : SubmitForm, (onSubmit form).1 ≠ [] → form.isGM = true) := by
  refine ⟨rfl, ?_, ?_⟩
  · intro form h
    simp [onSubmit, h]
  · intro form h
    by_contra hgm
    have hfalse : form.isGM = false := by
      cases hiz : form.isGM
      · rfl
      · exact absurd hiz hgm
    simp [onSubmit, hfalse] at h

/-- Witness for C5 at a concrete input: a non-GM submission performs no
writes and ends in the GM-only error. -/
theorem c5_witness :
    onSubmit ⟨false, "gm", ⟨"", "", none, none, "", ""⟩, []⟩ =
      ([], SubmitResult.gmOnlyError) :=
  c5_settings_writes_require_gm.2.1 ⟨false, "gm", ⟨"", "", none, none, "", ""⟩, []⟩ rfl

/-- Claim C10: `'none'` is in `AVAILABLE_EFFECTS` (so hub validation accepts
it), `applyEffect` has no dedicated case for it — it takes the `default`
switch branch, attaching a `GlowFilter` or the fallback — and no effect
value leaves the sprite without a module-marked filter. -/
theorem c10_effect_none_takes_default_branch :
    "none" ∈ AVAILABLE_EFFECTS
    ∧ (∀ env : FilterEnv, selectFilter "none" env =
        if env.glowAvailable then FilterKind.glowFilter 10 (3/2) none
        else FilterKind.colorMatrixFallback 1)
    ∧ (∀ (fs : Option (List SpriteFilter)) (effect : String) (env : FilterEnv),
        1 ≤ markedCount (applyEffectOn fs effect env)) := by
  refine ⟨by decide, ?_, ?_⟩
  · intro env
    simp [selectFilter]
  · intro fs effect env
    simp [markedCount, applyEffectOn, filterList, List.countP_append, List.countP_cons]

/-- Claim C4: for every effect value, when the preferred host filter class
is unavailable (`GlowFilter` for `glow`/`neon`/default, `OutlineFilter` and
then `GlowFilter` for `outline`, `DropShadowFilter` for `shadow`),
`applyEffect` constructs the `ColorMatrixFilter` fallback, and for every
effect value the sprite ends up with the selected filter attached. -/
theorem c4_fallback_filter_always_attached :
    ∀ (effect : String) (env : FilterEnv) (fs : Option (List SpriteFilter)),
      (preferredUnavailable effect env → (selectFilter effect env).isFallback = true)
      ∧ ∃ l, applyEffectOn fs effect env = some l
          ∧ ({ rnkIllumination := true, kind := some (selectFilter effect env) } :
              SpriteFilter) ∈ l := by
  intro effect env fs
  constructor
  · intro h
    by_cases h1 : effect = "outline"
    · subst h1
      simp [preferredUnavailable] at h
      simp [selectFilter, h.1, h.2, FilterKind.isFallback]
    · by_cases h2 : effect = "shadow"
      · subst h2
        simp [preferredUnavailable] at h
        simp [selectFilter, h, FilterKind.isFallback]
      · simp only [preferredUnavailable, if_neg h1, if_neg h2] at h
        by_cases h3 : effect = "glow"
        · subst h3
          simp [selectFilter, h, FilterKind.isFallback]
        · by_cases h4 : effect = "neon"
          · subst h4
            simp [selectFilter, h, FilterKind.isFallback]
          · simp [selectFilter, h1, h2, h3, h4, h, FilterKind.isFallback]
  · exact ⟨_, rfl, List.mem_append_right _ (List.mem_singleton.2 rfl)⟩

/-- Witness for C4 at a concrete input: with no host filter class available,
the `glow` effect selects the `ColorMatrixFilter` fallback. -/
theorem c4_witness :
    (selectFilter "glow" ⟨false, false, false⟩).isFallback = true :=
  (c4_fallback_filter_always_attached "glow" ⟨false, false, false⟩ none).1
    (by simp [preferredUnavailable])

theorem filterList_removeEffectFilters (fs : Option (List SpriteFilter)) :
    filterList (removeEffectFilters fs) = unmarkedFilters fs := by
  cases fs with
  | none => rfl
  | some l =>
    simp only [removeEffectFilters, unmarkedFilters, filterList]
    split
    · rfl
    · rename_i h
      have : (l.filter fun f => !f.rnkIllumination).length = 0 := by omega
      simp [List.length_eq_zero.1 this]

theorem filter_unmarked_idem (l : List SpriteFilter) :
    ((l.filter fun f => !f.rnkIllumination).filter fun f => !f.rnkIllumination) =
      l.filter fun f => !f.rnkIllumination :=
  List.filter_eq_self.2 fun _ hx => (List.mem_filter.1 hx).2

/-- Claim C8: `applyEffect` and `removeEffect` preserve every filter not
marked `_rnkIllumination` (same filters, same order); after `applyEffect`
the sprite carries exactly one module-marked filter, after `removeEffect`
none, and `removeEffect` nulls the filters array exactly when no unmarked
filter remains. -/
theorem c8_module_filters_isolated :
    ∀ (fs : Option (List SpriteFilter)) (effect : String) (env : FilterEnv),
      unmarkedFilters (applyEffectOn fs effect env) = unmarkedFilters fs
      ∧ markedCount (applyEffectOn fs effect env) = 1
      ∧ unmarkedFilters (removeEffectFilters fs) = unmarkedFilters fs
      ∧ markedCount (removeEffectFilters fs) = 0
      ∧ (removeEffectFilters fs = none ↔ unmarkedFilters fs = []) := by
  intro fs effect env
  have hrem : filterList (removeEffectFilters fs) = unmarkedFilters fs :=
    filterList_removeEffectFilters fs
  have hmem : ∀ f ∈ unmarkedFilters fs, (!f.rnkIllumination) = true := by
    intro f hf
    exact (List.mem_filter.1 hf).2
  refine ⟨?_, ?_, ?_, ?_, ?_⟩
  · simp only [applyEffectOn, unmarkedFilters, filterList, Option.getD_some,
      List.filter_append]
    rw [show ((removeEffectFilters fs).getD [] : List SpriteFilter) =
        filterList (removeEffectFilters fs) from rfl, hrem]
    rw [List.filter_eq_self.2 hmem]
    simp [unmarkedFilters, filterList]
  · simp only [applyEffectOn, markedCount, filterList, Option.getD_some, List.countP_append]
    rw [show ((removeEffectFilters fs).getD [] : List SpriteFilter) =
        filterList (removeEffectFilters fs) from rfl, hrem]
    have : (unmarkedFilters fs).countP (fun f => f.rnkIllumination) = 0 := by
      refine List.countP_eq_zero.2 fun f hf => ?_
      have := hmem f hf
      simp_all
    simp [this, List.countP_cons]
  · simp only [unmarkedFilters]
    rw [show filterList (removeEffectFilters fs) = unmarkedFilters fs from hrem]
    exact List.filter_eq_self.2 hmem
  · simp only [markedCount]
    rw [show filterList (removeEffectFilters fs) = unmarkedFilters fs from hrem]
    refine List.countP_eq_zero.2 fun f hf => ?_
    have := hmem f hf
    simp_all
  · cases fs with
    | none => simp [removeEffectFilters, unmarkedFilters, filterList]
    | some l =>
      simp only [removeEffectFilters, unmarkedFilters, filterList, Option.getD_some]
      split
      · rename_i h
        constructor
        · intro hcon; exact absurd hcon (by simp)
        · intro hnil; rw [hnil] at h; simp at h
      · rename_i h
        have : (l.filter fun f => !f.rnkIllumination).length = 0 := by omega
        simp [List.length_eq_zero.1 this]

theorem processUsers_writes_valid :
    ∀ (us : List (String × UserForm)) (acc : List Write),
      (∀ w ∈ acc, validSettings w.settings = true) →
      ∀ w ∈ (processUsers us acc).1, validSettings w.settings = true := by
  intro us
  induction us with
  | nil => intro acc hacc w hw; exact hacc w hw
  | cons p rest ih =>
    obtain ⟨uid, f⟩ := p
    intro acc hacc w hw
    simp only [processUsers] at hw
    split at hw
    · rename_i hvalid
      refine ih (acc ++ [⟨uid, deriveUserSettings f⟩]) ?_ w hw
      intro v hv
      rcases List.mem_append.1 hv with hv | hv
      · exact hacc v hv
      · rw [List.mem_singleton.1 hv]; exact hvalid
    · exact hacc w hw

theorem processUsers_saveError_of_invalid :
    ∀ (us : List (String × UserForm)) (acc : List Write),
      (∃ p ∈ us, validSettings (deriveUserSettings p.2) = false) →
      (processUsers us acc).2 = SubmitResult.saveError := by
  intro us
  induction us with
  | nil => rintro acc ⟨p, hp, _⟩; exact absurd hp (List.not_mem_nil p)
  | cons q rest ih =>
    obtain ⟨uid, f⟩ := q
    rintro acc ⟨p, hp, hpinv⟩
    simp only [processUsers]
    split
    · rename_i hvalid
      rcases List.mem_cons.1 hp with rfl | hp
      · exact absurd hvalid (by simp [hpinv])
      · exact ih _ ⟨p, hp, hpinv⟩
    · rfl

/-- Claim C2: every settings object `_onSubmit` writes passed all five
validation checks first, and when some user's submitted values fail a check
the handler ends in the error branch. -/
theorem c2_every_write_validated :
    (∀ (form : SubmitForm) (w : Write), w ∈ (onSubmit form).1 →
      validSettings w.settings = true)
    ∧ (∀ form : SubmitForm, form.isGM = true →
        (∃ p ∈ form.users, validSettings (deriveUserSettings p.2) = false) →
        (onSubmit form).2 = SubmitResult.saveError) := by
  constructor
  · intro form w hw
    by_cases hgm : form.isGM
    · simp only [onSubmit, hgm, Bool.not_true, Bool.false_eq_true, if_false] at hw
      split at hw
      · rename_i hvalid
        refine processUsers_writes_valid form.users [⟨form.gmId, deriveGMSettings form.gm⟩]
          ?_ w hw
        intro v hv
        rw [List.mem_singleton.1 hv]
        exact hvalid
      · exact absurd hw (List.not_mem_nil w)
    · rw [Bool.not_eq_true] at hgm
      simp [onSubmit, hgm] at hw
  · intro form hgm hex
    simp only [onSubmit, hgm, Bool.not_true, Bool.false_eq_true, if_false]
    split
    · exact processUsers_saveError_of_invalid form.users _ hex
    · rfl

/-- Witness for C2 at a concrete input: the one write a valid single-GM
submission performs carries validated settings. -/
theorem c2_witness :
    validSettings
      (Write.settings ⟨"gm", deriveGMSettings ⟨"#ffffff", "glow", some 1, some 30, "", "x"⟩⟩)
      = true :=
  c2_every_write_validated.1
    ⟨true, "gm", ⟨"#ffffff", "glow", some 1, some 30, "", "x"⟩, []⟩
    ⟨"gm", deriveGMSettings ⟨"#ffffff", "glow", some 1, some 30, "", "x"⟩⟩
    (by decide)

theorem processUsers_stops_at_invalid :
    ∀ (pre : List (String × UserForm)) (acc : List Write) (bad : String × UserForm)
      (rest : List (String × UserForm)),
      (∀ p ∈ pre, validSettings (deriveUserSettings p.2) = true) →
      validSettings (deriveUserSettings bad.2) = false →
      processUsers (pre ++ bad :: rest) acc =
        (acc ++ pre.map fun p => ⟨p.1, deriveUserSettings p.2⟩, SubmitResult.saveError) := by
  intro pre
  induction pre with
  | nil =>
    intro acc bad rest _ hbad
    obtain ⟨uid, f⟩ := bad
    simp only [List.nil_append, processUsers, hbad]
    simp
  | cons q pre ih =>
    intro acc bad rest hpre hbad
    obtain ⟨uid, f⟩ := q
    have hq : validSettings (deriveUserSettings f) = true := hpre (uid, f) (List.mem_cons_self _ _)
    simp only [List.cons_append, processUsers, hq, if_true, List.append_eq]
    rw [ih _ bad rest (fun p hp => hpre p (List.mem_cons_of_mem _ hp)) hbad]
    simp [List.append_assoc]

/-- Claim C9: `_onSubmit` is not atomic: with valid GM values, a prefix of
valid users, and then a user whose values fail validation, the handler ends
in the error branch having already written the GM's settings first and each
valid earlier user's settings, with no rollback, and nothing for the failing
user or those after it. -/
theorem c9_onSubmit_no_rollback (gmId : String) (gmF : UserForm)
    (pre : List (String × UserForm)) (bad : String × UserForm)
    (rest : List (String × UserForm))
    (hgm : validSettings (deriveGMSettings gmF) = true)
    (hpre : ∀ p ∈ pre, validSettings (deriveUserSettings p.2) = true)
    (hbad : validSettings (deriveUserSettings bad.2) = false) :
    onSubmit ⟨true, gmId, gmF, pre ++ bad :: rest⟩ =
      (⟨gmId, deriveGMSettings gmF⟩ ::
        (pre.map fun p => ⟨p.1, deriveUserSettings p.2⟩), SubmitResult.saveError) := by
  simp only [onSubmit, Bool.not_true, Bool.false_eq_true, if_false, hgm, if_true]
  rw [processUsers_stops_at_invalid pre _ bad rest hpre hbad]
  simp

/-- Witness for C9 at a concrete input: a valid GM, one valid player, then a
player with an invalid color: the GM and the first player are written, the
handler errors, nothing is rolled back. -/
theorem c9_witness :
    onSubmit ⟨true, "gm", ⟨"#ffffff", "glow", some 1, some 30, "", "x"⟩,
        [("u1", ⟨"#00ff00", "neon", some 2, some 15, "", "star"⟩),
         ("u2", ⟨"red", "glow", some 1, some 30, "", "x"⟩)]⟩ =
      (⟨"gm", deriveGMSettings ⟨"#ffffff", "glow", some 1, some 30, "", "x"⟩⟩ ::
        ([("u1", (⟨"#00ff00", "neon", some 2, some 15, "", "star"⟩ : UserForm))].map
          fun p => ⟨p.1, deriveUserSettings p.2⟩), SubmitResult.saveError) :=
  c9_onSubmit_no_rollback "gm" ⟨"#ffffff", "glow", some 1, some 30, "", "x"⟩
    [("u1", ⟨"#00ff00", "neon", some 2, some 15, "", "star"⟩)]
    ("u2", ⟨"red", "glow", some 1, some 30, "", "x"⟩) []
    (by decide) (by decide) (by decide)

theorem pixelDistance_eq_totalLength (sx sy ex ey : ℝ) :
    pixelDistance sx sy ex ey = totalLength sx sy ex ey := by
  unfold pixelDistance totalLength
  congr 1
  ring

/-- Claim C1: when the two token centers coincide, `pixelDistance` is zero,
hence `unitDistance` is zero, `numMarkers = ⌊0 / 5⌋ = 0`, and the marker
loop (the only place dividing by `totalLength`) is skipped, in the Wohdan
edition by its `pixelDistance < 5` bail-out; and the marker loop runs only
when `totalLength` is positive. -/
theorem c1_zero_distance_skips_marker_divisions (u t : CanvasToken) (S D : ℝ) :
    (u.center = t.center →
      unitDistance u.center.1 u.center.2 t.center.1 t.center.2 S D = 0
      ∧ numMarkers u.center.1 u.center.2 t.center.1 t.center.2 S D = 0
      ∧ (drawTargetingLine u t S D).markers = []
      ∧ wohdanLineSkipped u t)
    ∧ ((drawTargetingLine u t S D).markers ≠ [] →
      0 < totalLength u.center.1 u.center.2 t.center.1 t.center.2) := by
  constructor
  · intro h
    have hpd : pixelDistance u.center.1 u.center.2 t.center.1 t.center.2 = 0 := by
      rw [← h]
      simp [pixelDistance]
    have hud : unitDistance u.center.1 u.center.2 t.center.1 t.center.2 S D = 0 := by
      simp [unitDistance, hpd]
    have hnm : numMarkers u.center.1 u.center.2 t.center.1 t.center.2 S D = 0 := by
      simp [numMarkers, hud]
    refine ⟨hud, hnm, ?_, ?_⟩
    · simp [drawTargetingLine, hnm]
    · rw [wohdanLineSkipped, hpd]
      norm_num
  · intro hm
    have hpos : 0 < numMarkers u.center.1 u.center.2 t.center.1 t.center.2 S D := by
      by_contra hle
      simp [drawTargetingLine, hle] at hm
    have h1 : (1 : ℤ) ≤ numMarkers u.center.1 u.center.2 t.center.1 t.center.2 S D := hpos
    have h5 : (1 : ℝ) ≤ unitDistance u.center.1 u.center.2 t.center.1 t.center.2 S D / 5 := by
      have := Int.le_floor.1 h1
      exact_mod_cast this
    have hpd0 : pixelDistance u.center.1 u.center.2 t.center.1 t.center.2 ≠ 0 := by
      intro h0
      rw [unitDistance, h0] at h5
      norm_num at h5
    rw [← pixelDistance_eq_totalLength]
    exact lt_of_le_of_ne (Real.sqrt_nonneg _) (Ne.symm hpd0)

/-- Witness for C1 at a concrete input: two tokens at the same center
`(2, 3)` on a grid of size `100` and distance `5`. -/
theorem c1_witness :
    unitDistance (⟨(2, 3)⟩ : CanvasToken).center.1 (⟨(2, 3)⟩ : CanvasToken).center.2
        (⟨(2, 3)⟩ : CanvasToken).center.1 (⟨(2, 3)⟩ : CanvasToken).center.2 100 5 = 0
    ∧ numMarkers (⟨(2, 3)⟩ : CanvasToken).center.1 (⟨(2, 3)⟩ : CanvasToken).center.2
        (⟨(2, 3)⟩ : CanvasToken).center.1 (⟨(2, 3)⟩ : CanvasToken).center.2 100 5 = 0
    ∧ (drawTargetingLine ⟨(2, 3)⟩ ⟨(2, 3)⟩ 100 5).markers = []
    ∧ wohdanLineSkipped ⟨(2, 3)⟩ ⟨(2, 3)⟩ :=
  (c1_zero_distance_skips_marker_divisions ⟨(2, 3)⟩ ⟨(2, 3)⟩ 100 5).1 rfl

/-- Claim C3: with distinct token centers the number of markers drawn is
`⌊unitDistance / 5⌋`; the `i`-th marker sits at
`start + unitVector * (i * 5 / grid.distance) * grid.size`, which is exactly
`i * 5` scene-distance units from the start point; and every marker lies on
the closed segment between the two token centers. -/
theorem c3_markers_count_spacing_on_segment (u t : CanvasToken) (S D : ℝ)
    (hne : u.center ≠ t.center) (hS : 0 < S) (hD : 0 < D) :
    0 ≤ numMarkers u.center.1 u.center.2 t.center.1 t.center.2 S D
    ∧ (drawTargetingLine u t S D).markers.length =
        (numMarkers u.center.1 u.center.2 t.center.1 t.center.2 S D).toNat
    ∧ ∀ i : ℕ, 1 ≤ i →
        (i : ℤ) ≤ numMarkers u.center.1 u.center.2 t.center.1 t.center.2 S D →
        (drawTargetingLine u t S D).markers[i - 1]? =
          some (markerPos u.center.1 u.center.2 t.center.1 t.center.2 S D i)
        ∧ distUnits S D u.center
            (markerPos u.center.1 u.center.2 t.center.1 t.center.2 S D i) = i * 5
        ∧ onSegment u.center t.center
            (markerPos u.center.1 u.center.2 t.center.1 t.center.2 S D i) := by
  obtain ⟨⟨sx, sy⟩⟩ := u
  obtain ⟨⟨ex, ey⟩⟩ := t
  dsimp only at hne ⊢
  have hD5 : jsOrR D 5 = D := if_neg (ne_of_gt hD)
  have hsq : 0 < (ex - sx) * (ex - sx) + (ey - sy) * (ey - sy) := by
    have hor : sx ≠ ex ∨ sy ≠ ey := by
      by_contra hc
      push_neg at hc
      exact hne (by rw [hc.1, hc.2])
    rcases hor with h | h
    · have hdx : ex - sx ≠ 0 := sub_ne_zero.2 (Ne.symm h)
      have := mul_self_pos.2 hdx
      nlinarith [mul_self_nonneg (ey - sy)]
    · have hdy : ey - sy ≠ 0 := sub_ne_zero.2 (Ne.symm h)
      have := mul_self_pos.2 hdy
      nlinarith [mul_self_nonneg (ex - sx)]
  have hL : 0 < totalLength sx sy ex ey := by
    rw [totalLength]
    exact Real.sqrt_pos.2 hsq
  have hLne : totalLength sx sy ex ey ≠ 0 := ne_of_gt hL
  have hLsq : totalLength sx sy ex ey * totalLength sx sy ex ey =
      (ex - sx) * (ex - sx) + (ey - sy) * (ey - sy) := by
    rw [totalLength]
    exact Real.mul_self_sqrt hsq.le
  have hud : unitDistance sx sy ex ey S D = totalLength sx sy ex ey / S * D := by
    rw [unitDistance, pixelDistance_eq_totalLength, hD5]
  have hud0 : 0 ≤ unitDistance sx sy ex ey S D := by
    rw [hud]
    positivity
  have h0nm : 0 ≤ numMarkers sx sy ex ey S D := by
    rw [numMarkers]
    exact Int.floor_nonneg.2 (div_nonneg hud0 (by norm_num))
  refine ⟨h0nm, ?_, ?_⟩
  · by_cases hpos : 0 < numMarkers sx sy ex ey S D
    · simp [drawTargetingLine, hpos]
    · have h0 : numMarkers sx sy ex ey S D = 0 := le_antisymm (not_lt.1 hpos) h0nm
      simp [drawTargetingLine, h0]
  · intro i h1 hle
    have hipos : (0 : ℤ) < (i : ℤ) := by exact_mod_cast h1
    have hpos : 0 < numMarkers sx sy ex ey S D := lt_of_lt_of_le hipos hle
    have hilt : i - 1 < (numMarkers sx sy ex ey S D).toNat := by omega
    refine ⟨?_, ?_, ?_⟩
    · simp only [drawTargetingLine, if_pos hpos]
      rw [List.getElem?_map, List.getElem?_range' 1 1 hilt]
      simp only [Option.map_some']
      congr 2
      omega
    · rw [distUnits, markerPos]
      dsimp only
      rw [hD5]
      have hq0 : 0 ≤ (i : ℝ) * 5 / D * S := by positivity
      have key : (sx + (ex - sx) / totalLength sx sy ex ey * ((i : ℝ) * 5 / D * S) - sx) ^ 2
          + (sy + (ey - sy) / totalLength sx sy ex ey * ((i : ℝ) * 5 / D * S) - sy) ^ 2
          = ((i : ℝ) * 5 / D * S) ^ 2 := by
        have hexp : (sx + (ex - sx) / totalLength sx sy ex ey * ((i : ℝ) * 5 / D * S) - sx) ^ 2
            + (sy + (ey - sy) / totalLength sx sy ex ey * ((i : ℝ) * 5 / D * S) - sy) ^ 2
            = ((i : ℝ) * 5 / D * S) ^ 2
              * ((ex - sx) * (ex - sx) + (ey - sy) * (ey - sy))
              / (totalLength sx sy ex ey * totalLength sx sy ex ey) := by
          field_simp
          ring
        rw [hexp, ← hLsq]
        field_simp
        ring
      rw [key, Real.sqrt_sq hq0]
      field_simp
      ring
    · refine ⟨(i : ℝ) * 5 / D * S / totalLength sx sy ex ey, by positivity, ?_, ?_⟩
      · rw [div_le_one hL]
        have hfl : (i : ℝ) ≤ unitDistance sx sy ex ey S D / 5 := by
          have := Int.le_floor.1 hle
          exact_mod_cast this
        rw [hud] at hfl
        have h2 : (i : ℝ) * 5 ≤ totalLength sx sy ex ey / S * D := by linarith
        have h3 : (i : ℝ) * 5 * (S / D) ≤ (totalLength sx sy ex ey / S * D) * (S / D) :=
          mul_le_mul_of_nonneg_right h2 (by positivity)
        have h4 : (totalLength sx sy ex ey / S * D) * (S / D) = totalLength sx sy ex ey := by
          field_simp
        have h5 : (i : ℝ) * 5 * (S / D) = (i : ℝ) * 5 / D * S := by ring
        linarith
      · rw [markerPos]
        dsimp only
        rw [hD5, Prod.mk.injEq]
        constructor <;> · field_simp; ring

/-- Witness for C3 at a concrete input: centers `(0, 0)` and `(300, 400)`
(pixel distance `500`), grid size `100`, grid distance `5`, so
`unitDistance = 25` and five markers are drawn. -/
theorem c3_witness :
    ((⟨(0, 0)⟩ : CanvasToken).center ≠ (⟨(300, 400)⟩ : CanvasToken).center)
    ∧ (0 : ℝ) < 100 ∧ (0 : ℝ) < 5
    ∧ (0 ≤ numMarkers (⟨(0, 0)⟩ : CanvasToken).center.1 (⟨(0, 0)⟩ : CanvasToken).center.2
          (⟨(300, 400)⟩ : CanvasToken).center.1 (⟨(300, 400)⟩ : CanvasToken).center.2 100 5
        ∧ (drawTargetingLine ⟨(0, 0)⟩ ⟨(300, 400)⟩ 100 5).markers.length =
            (numMarkers (⟨(0, 0)⟩ : CanvasToken).center.1 (⟨(0, 0)⟩ : CanvasToken).center.2
              (⟨(300, 400)⟩ : CanvasToken).center.1
              (⟨(300, 400)⟩ : CanvasToken).center.2 100 5).toNat
        ∧ ∀ i : ℕ, 1 ≤ i →
            (i : ℤ) ≤ numMarkers (⟨(0, 0)⟩ : CanvasToken).center.1
              (⟨(0, 0)⟩ : CanvasToken).center.2 (⟨(300, 400)⟩ : CanvasToken).center.1
              (⟨(300, 400)⟩ : CanvasToken).center.2 100 5 →
            (drawTargetingLine ⟨(0, 0)⟩ ⟨(300, 400)⟩ 100 5).markers[i - 1]? =
              some (markerPos (⟨(0, 0)⟩ : CanvasToken).center.1
                (⟨(0, 0)⟩ : CanvasToken).center.2 (⟨(300, 400)⟩ : CanvasToken).center.1
                (⟨(300, 400)⟩ : CanvasToken).center.2 100 5 i)
            ∧ distUnits 100 5 (⟨(0, 0)⟩ : CanvasToken).center
                (markerPos (⟨(0, 0)⟩ : CanvasToken).center.1
                  (⟨(0, 0)⟩ : CanvasToken).center.2 (⟨(300, 400)⟩ : CanvasToken).center.1
                  (⟨(300, 400)⟩ : CanvasToken).center.2 100 5 i) = i * 5
            ∧ onSegment (⟨(0, 0)⟩ : CanvasToken).center (⟨(300, 400)⟩ : CanvasToken).center
                (markerPos (⟨(0, 0)⟩ : CanvasToken).center.1
                  (⟨(0, 0)⟩ : CanvasToken).center.2 (⟨(300, 400)⟩ : CanvasToken).center.1
                  (⟨(300, 400)⟩ : CanvasToken).center.2 100 5 i)) :=
  ⟨by norm_num [Prod.ext_iff], by norm_num, by norm_num,
    c3_markers_count_spacing_on_segment ⟨(0, 0)⟩ ⟨(300, 400)⟩ 100 5
      (by norm_num [Prod.ext_iff]) (by norm_num) (by norm_num)⟩

end RNKIllumination
